import Mathlib

/-
Formal model of `logic/speech2text_speechmatics.py`, a client for the
Speechmatics speech-to-text REST API.  Pure computations (configuration
validation, keyword-argument binding, HTTP status-code handling, form-data
construction) are translated directly into Lean functions.  The effectful
orchestrator `transcript_audio` is modelled as a function from an environment
of oracle responses (job-submission result, successive job-details responses,
output-fetch result) to the trace of external calls it performs together with
its final outcome.  Python string values that may be `None` are modelled as
`Option String`.
-/

namespace Speechmatics

/-- Kinds of Python exceptions that the modelled code can raise.
`validationError` stands for the bare `raise Exception(msg)` statements in
`SpeechmaticsConfig.__init__`; `typeError` for the `TypeError` Python raises
when keyword arguments in `cls(**record)` do not match the constructor's
parameters; `ioError` for `IOError` from `open`; `speechmaticsError` for the
`SpeechmaticsError` class of the source; `unboundLocalError` for Python's
`UnboundLocalError` when a local variable is read before assignment. -/
inductive PyError where
  | validationError : String → PyError
  | typeError : String → PyError
  | ioError : String → PyError
  | speechmaticsError : String → PyError
  | unboundLocalError : String → PyError
deriving DecidableEq

/-- Truthiness of a Python value that is either `None` or a string:
`None` and the empty string are falsy, every other string is truthy.
This is the semantics of `if not userId:` in `SpeechmaticsConfig.__init__`. -/
def pyTruthy : Option String → Bool
  | none => false
  | some s => s != ""

/-- The validated configuration object: the state stored on `self` by
`SpeechmaticsConfig.__init__` after its checks pass (source lines 12-33). -/
structure SpeechmaticsConfig where
  userId : String
  apiAuthToken : String
  language : String
  format : String
  text : Option String
  callback_url : Option String
  notification : Option String
  notification_email : Option String
deriving DecidableEq

/-- Translation of `SpeechmaticsConfig.__init__` (source lines 12-33).
Each argument is the Python value bound to the corresponding parameter
(after Python has applied any defaults at the call site).  Each falsy
required field raises `Exception('required ... is empty')`, checked in
source order; otherwise the fields are stored. -/
def SpeechmaticsConfig.init (userId apiAuthToken language format
    text callback_url notification notification_email : Option String) :
    Except PyError SpeechmaticsConfig :=
  if !(pyTruthy userId) then
    .error (.validationError ("required userId is empty"))
  else if !(pyTruthy apiAuthToken) then
    .error (.validationError ("required apiAuthToken is empty"))
  else if !(pyTruthy language) then
    .error (.validationError ("required language is empty"))
  else if !(pyTruthy format) then
    .error (.validationError ("required format is empty"))
  else
    .ok { userId := userId.getD (""), apiAuthToken := apiAuthToken.getD (""),
          language := language.getD (""), format := format.getD (""),
          text := text, callback_url := callback_url,
          notification := notification,
          notification_email := notification_email }

/-- A call of `SpeechmaticsConfig(userId, apiAuthToken)` that omits every
optional parameter: Python fills in the declared defaults
`language='en-US'`, `format='txt'`, and `None` for the rest
(source line 12). -/
def SpeechmaticsConfig.init_with_defaults (userId apiAuthToken : Option String) :
    Except PyError SpeechmaticsConfig :=
  SpeechmaticsConfig.init userId apiAuthToken (some ("en-US")) (some ("txt"))
    none none none none

/-- The parameter names of `SpeechmaticsConfig.__init__` (source line 12),
the only keyword arguments `cls(**record)` can bind. -/
def paramNames : List String :=
  ["userId", "apiAuthToken", "language", "format", "text", "callback_url",
   "notification", "notification_email"]

/-- The arguments bound for a call of `SpeechmaticsConfig.__init__`. -/
structure InitArgs where
  userId : Option String
  apiAuthToken : Option String
  language : Option String
  format : Option String
  text : Option String
  callback_url : Option String
  notification : Option String
  notification_email : Option String
deriving DecidableEq

/-- Lookup of a key in a key-value record.  Records model the dictionary
produced by `json.load`; values are `none` for JSON `null` and `some s` for
a string.  Keys are assumed distinct, as in a parsed JSON object. -/
def lookupKey (r : List (String × Option String)) (k : String) :
    Option (Option String) :=
  match r.find? (fun p => p.1 == k) with
  | some p => some p.2
  | none => none

/-- Python's binding of `cls(**record)` (source line 41) against the
parameter list of `SpeechmaticsConfig.__init__`: a key that is not a
parameter name raises `TypeError`; a record missing the default-less
parameters `userId` or `apiAuthToken` raises `TypeError`; otherwise each
parameter receives the record's value when its key is present and its
declared default otherwise. -/
def bindKwargs (r : List (String × Option String)) : Except PyError InitArgs :=
  if r.any (fun p => !(paramNames.contains p.1)) then
    .error (.typeError ("got an unexpected keyword argument"))
  else
    match lookupKey r ("userId"), lookupKey r ("apiAuthToken") with
    | some u, some t =>
        .ok { userId := u, apiAuthToken := t,
              language := (lookupKey r ("language")).getD (some ("en-US")),
              format := (lookupKey r ("format")).getD (some ("txt")),
              text := (lookupKey r ("text")).getD none,
              callback_url := (lookupKey r ("callback_url")).getD none,
              notification := (lookupKey r ("notification")).getD none,
              notification_email := (lookupKey r ("notification_email")).getD none }
    | _, _ => .error (.typeError ("missing required positional argument"))

/-- Translation of `SpeechmaticsConfig.from_json` (source lines 36-41)
applied to an already-parsed record: the file read and JSON parse are I/O
performed before the `cls(**loaded_json)` call, so the model takes the
parsed record as input.  Binding failures surface as `TypeError`; a bound
record is passed to `SpeechmaticsConfig.init` exactly as by
`cls(**loaded_json)`. -/
def from_json_record (r : List (String × Option String)) :
    Except PyError SpeechmaticsConfig :=
  match bindKwargs r with
  | .error e => .error e
  | .ok a =>
      SpeechmaticsConfig.init a.userId a.apiAuthToken a.language a.format
        a.text a.callback_url a.notification a.notification_email

/-- The spec's `ConfigurationError` taxon: a failure raised while
constructing a configuration.  The source has no dedicated exception class;
empty required fields raise a bare `Exception` and mismatched keyword
records raise `TypeError` (itself a subclass of `Exception`), so both
belong to this taxon. -/
def isConfigFailure : PyError → Bool
  | .validationError _ => true
  | .typeError _ => true
  | _ => false

/-- Whether a configuration-construction outcome is a configuration
failure. -/
def failsAsConfig (x : Except PyError SpeechmaticsConfig) : Bool :=
  match x with
  | .error e => isConfigFailure e
  | .ok _ => false

/-- A job-details record as returned by `job_details`: the fields of the
`job` sub-object that `transcript_audio` reads (source lines 195-216). -/
structure Details where
  job_status : String
  check_wait : Nat
  job_type : String
deriving DecidableEq

/-- An HTTP response as seen by the client methods: the status code and the
response body `request.text`. -/
structure HttpResponse where
  status_code : Nat
  body : String
deriving DecidableEq

/-- The status-code-specific middle block appended to the `job_post` error
message (source lines 110-129); empty for codes without a dedicated
branch. -/
def job_post_err_detail (code : Nat) : String :=
  if code = 400 then
    "Common causes of this error are:\nMalformed arguments\nMissing data file\nAbsent / unsupported language selection."
  else if code = 401 then
    "Common causes of this error are:\nInvalid user id or authentication token."
  else if code = 403 then
    "Common causes of this error are:\nInsufficient credit\nUser id not in our database\nIncorrect authentication token."
  else if code = 429 then
    "Common causes of this error are:\nYou are submitting too many POSTs in a short period of time."
  else if code = 503 then
    "Common causes of this error are:\nThe system is temporarily unavailable or overloaded.\nYour POST will typically succeed if you try again soon."
  else
    ""

/-- The complete error message raised by `job_post` for a non-200 response
(source lines 108-132): header with the status code, the code-specific
detail block, and the contact footer. -/
def job_post_err_msg (code : Nat) : String :=
  "Attempt to POST job failed with code " ++ toString code ++ "\n"
    ++ job_post_err_detail code
    ++ "\nIf you are still unsure why your POST failed please contact speechmatics:support@speechmatics.com"

/-- The error message raised by both `job_details` (source lines 146-149)
and `get_output` (source lines 168-171) for a non-200 response. -/
def get_failure_msg (code : Nat) : String :=
  "Attempt to GET job details failed with code " ++ toString code
    ++ "\nIf you are still unsure why your POST failed please contact speechmatics:support@speechmatics.com"

/-- Response handling of `SpeechmaticsClient.job_post` (source lines
103-132): on HTTP 200 the body is parsed and its `id` field returned
(`parseId` models `json.loads(request.text)['id']`); on any other code a
`SpeechmaticsError` with the code-keyed message is raised. -/
def job_post_response (parseId : String → Except PyError String)
    (resp : HttpResponse) : Except PyError String :=
  if resp.status_code = 200 then
    parseId resp.body
  else
    .error (.speechmaticsError (job_post_err_msg resp.status_code))

/-- Response handling of `SpeechmaticsClient.job_details` (source lines
142-149): on HTTP 200 the body's `job` sub-record is returned (`parseJob`
models `json.loads(request.text)['job']`); otherwise a `SpeechmaticsError`
with the generic GET failure message is raised. -/
def job_details_response (parseJob : String → Except PyError Details)
    (resp : HttpResponse) : Except PyError Details :=
  if resp.status_code = 200 then
    parseJob resp.body
  else
    .error (.speechmaticsError (get_failure_msg resp.status_code))

/-- Response handling of `SpeechmaticsClient.get_output` (source lines
163-171): on HTTP 200 the body is returned as UTF-8 text; otherwise a
`SpeechmaticsError` with the generic GET failure message is raised. -/
def get_output_response (resp : HttpResponse) : Except PyError String :=
  if resp.status_code = 200 then
    .ok resp.body
  else
    .error (.speechmaticsError (get_failure_msg resp.status_code))

/-- Split a character list at the first occurrence of `sep`: the model of
Python's `s.split(sep, 1)` when `sep` occurs in `s`.  Returns the part
before the first `sep` and, when `sep` occurs, the whole remainder after
it. -/
def splitFirst (sep : Char) : List Char → List Char × Option (List Char)
  | [] => ([], none)
  | c :: cs =>
      if c = sep then ([], some cs)
      else
        let r := splitFirst sep cs
        (c :: r.1, r.2)

/-- The `model`/`version` form fields built by `job_post` from the language
argument (source lines 92-94): `data = {"model": lang}` and, when `"="`
occurs in the value, `data['model'].split('=', 1)` distributes it over the
`model` and `version` fields. -/
def job_post_form_data (lang : String) : String × Option String :=
  if lang.data.contains '=' then
    let r := splitFirst '=' lang.data
    (String.mk r.1, r.2.map (fun v => String.mk v))
  else
    (lang, none)

/-- The external calls `transcript_audio` makes, in order, with the
arguments it passes. -/
inductive Event where
  | jobPost : String → String → Option String → Option String →
      Option String → Option String → Event
  | jobDetails : String → Event
  | sleep : Nat → Event
  | getOutput : String → String → String → Event
deriving DecidableEq

/-- Outcome of the polling loop of `transcript_audio`. -/
inductive PollResult where
  | terminal : Details → PollResult
  | raised : PyError → PollResult
  | stuck : PollResult
deriving DecidableEq

/-- Outcome of a `transcript_audio` run.  `stuck` is a model artifact: the
supplied list of details responses was exhausted while the loop would have
polled again. -/
inductive RunResult where
  | ok : String → RunResult
  | raised : PyError → RunResult
  | stuck : RunResult
deriving DecidableEq

/-- The terminal-status test of the polling loop (source line 195):
`details[u'job_status'] not in ['done', 'expired', 'unsupported_file_format',
'could_not_align']` keeps looping, so a status in that list is terminal. -/
def terminalStatus (s : String) : Bool :=
  (["done", "expired", "unsupported_file_format", "could_not_align"]).contains s

/-- The job-type-to-output-kind assignment of `transcript_audio` (source
lines 212-215): `'transcription'` assigns `'transcript'`, `'alignment'`
assigns `'alignment'`, and any other value leaves the local `job_type`
unassigned, modelled as `none`. -/
def jobTypeKind (jt : String) : Option String :=
  if jt = "transcription" then some ("transcript")
  else if jt = "alignment" then some ("alignment")
  else none

/-- The message of the `SpeechmaticsError` raised on terminal status
`unsupported_file_format` (source lines 202-204). -/
def unsupportedMsg : String :=
  "File was in an unsupported file format and could not be transcribed. You have been reimbursed all credits for this job."

/-- The message of the `SpeechmaticsError` raised on terminal status
`could_not_align` (source lines 206-208). -/
def couldNotAlignMsg : String :=
  "Could not align text and audio file. You have been reimbursed all credits for this job."

/-- The environment of one `transcript_audio` run: the loaded configuration
and the responses the remote service gives to the three kinds of calls.
`detailsResponses` are consumed one per `job_details` call, in order;
`outputResult` answers the single `get_output` call. -/
structure Env where
  config : SpeechmaticsConfig
  postResult : Except PyError String
  detailsResponses : List (Except PyError Details)
  outputResult : Except PyError String

/-- The `while` loop of `transcript_audio` (source lines 195-200), entered
with the most recently fetched details `d` and the remaining details
responses.  While the status is non-terminal it sleeps for the current
record's `check_wait` and re-fetches details; it stops at the first
terminal record, propagates a raised fetch error, and is `stuck` when the
supplied responses run out. -/
def pollLoop (jobId : String) (d : Details)
    (rs : List (Except PyError Details)) : List Event × PollResult :=
  if terminalStatus d.job_status then
    ([], .terminal d)
  else
    match rs with
    | [] => ([Event.sleep d.check_wait, Event.jobDetails jobId], .stuck)
    | .error e :: _ =>
        ([Event.sleep d.check_wait, Event.jobDetails jobId], .raised e)
    | .ok d1 :: rs1 =>
        let t := pollLoop jobId d1 rs1
        (Event.sleep d.check_wait :: Event.jobDetails jobId :: t.1, t.2)

/-- The terminal-status handling of `transcript_audio` (source lines
202-220): the two failure statuses raise `SpeechmaticsError`; otherwise the
output kind is assigned from the job type and `get_output` is called with
the job id, the configuration's format and that kind; a job type with no
assignment leaves the local unbound, so the `get_output` call raises
`UnboundLocalError` before any request is made. -/
def terminalPhase (env : Env) (job_id : String) (d : Details) :
    List Event × RunResult :=
  if d.job_status = "unsupported_file_format" then
    ([], .raised (.speechmaticsError unsupportedMsg))
  else if d.job_status = "could_not_align" then
    ([], .raised (.speechmaticsError couldNotAlignMsg))
  else
    match jobTypeKind d.job_type with
    | some job_type =>
        ([Event.getOutput job_id env.config.format job_type],
         match env.outputResult with
         | .ok out => .ok out
         | .error e => .raised e)
    | none => ([], .raised (.unboundLocalError ("job_type")))

/-- Translation of `SpeechmaticsSpeechToText.transcript_audio` (source
lines 181-220) over an oracle environment: submit the job, fetch details
once, run the polling loop, then handle the terminal status.  The returned
trace lists every external call in order; the result is the returned
output (UTF-8 encoding modelled as the identity on the text) or the raised
error. -/
def transcript_audio (full_path : String) (env : Env) :
    List Event × RunResult :=
  let config := env.config
  let postEv := Event.jobPost full_path config.language config.text
    config.callback_url config.notification config.notification_email
  match env.postResult with
  | .error e => ([postEv], .raised e)
  | .ok job_id =>
      match env.detailsResponses with
      | [] => ([postEv, Event.jobDetails job_id], .stuck)
      | .error e :: _ => ([postEv, Event.jobDetails job_id], .raised e)
      | .ok d0 :: rest =>
          let p := pollLoop job_id d0 rest
          match p.2 with
          | .stuck => (postEv :: Event.jobDetails job_id :: p.1, .stuck)
          | .raised e => (postEv :: Event.jobDetails job_id :: p.1, .raised e)
          | .terminal d =>
              let t := terminalPhase env job_id d
              (postEv :: Event.jobDetails job_id :: (p.1 ++ t.1), t.2)

/-- The events the polling loop emits for a run that consumes the listed
non-terminal details records in order: a sleep of each record's
`check_wait` followed by the next details fetch. -/
def pollEvents (jobId : String) : List Details → List Event
  | [] => []
  | d :: ds =>
      Event.sleep d.check_wait :: Event.jobDetails jobId :: pollEvents jobId ds

/-- The durations of the sleep calls in a trace, in order. -/
def sleepsOf : List Event → List Nat
  | [] => []
  | e :: tr =>
      match e with
      | Event.sleep n => n :: sleepsOf tr
      | _ => sleepsOf tr

/-- The `get_output` calls in a trace: job id, format argument and output
kind, in order. -/
def outputCallsOf : List Event → List (String × String × String)
  | [] => []
  | e :: tr =>
      match e with
      | Event.getOutput i f k => (i, f, k) :: outputCallsOf tr
      | _ => outputCallsOf tr

/-- The job identifiers a trace passes to the remote service, in order:
one per details fetch and one per output fetch. -/
def jobIdsOf : List Event → List String
  | [] => []
  | e :: tr =>
      match e with
      | Event.jobDetails i => i :: jobIdsOf tr
      | Event.getOutput i _ _ => i :: jobIdsOf tr
      | _ => jobIdsOf tr

/-- Stub body parser used to instantiate oracle parameters in witnesses. -/
def parseIdStub : String → Except PyError String := fun _ => Except.ok ("0")

/-- Stub job parser used to instantiate oracle parameters in witnesses. -/
def parseJobStub : String → Except PyError Details :=
  fun _ => Except.ok ⟨"done", 0, "transcription"⟩

/-- C3: constructing a configuration fails with a `ConfigurationError`
(the validation raise) exactly when one of userId, apiAuthToken, language,
format is bound to an empty or absent value; with all four truthy it
succeeds, and a call omitting the optional parameters defaults language to
"en-US" and format to "txt". -/
theorem C3_config_validation (u t l f te cb no ne : Option String) :
    ((∃ m, SpeechmaticsConfig.init u t l f te cb no ne =
        Except.error (PyError.validationError m)) ↔
      (pyTruthy u = false ∨ pyTruthy t = false ∨ pyTruthy l = false ∨
        pyTruthy f = false)) ∧
    (pyTruthy u = true → pyTruthy t = true → pyTruthy l = true →
      pyTruthy f = true →
      ∃ c, SpeechmaticsConfig.init u t l f te cb no ne = Except.ok c) ∧
    (pyTruthy u = true → pyTruthy t = true →
      ∃ c, SpeechmaticsConfig.init_with_defaults u t = Except.ok c ∧
        c.language = "en-US" ∧ c.format = "txt") := by
  have hdl : pyTruthy (some ("en-US")) = true := by decide
  have hdf : pyTruthy (some ("txt")) = true := by decide
  refine ⟨?_, ?_, ?_⟩
  · cases hu : pyTruthy u <;> cases ht : pyTruthy t <;>
      cases hl : pyTruthy l <;> cases hf : pyTruthy f <;>
      simp [SpeechmaticsConfig.init, hu, ht, hl, hf]
  · intro hu ht hl hf
    simp [SpeechmaticsConfig.init, hu, ht, hl, hf]
  · intro hu ht
    simp [SpeechmaticsConfig.init_with_defaults, SpeechmaticsConfig.init,
      hu, ht, hdl, hdf]

theorem C3_config_validation_witness :
    (∃ c, SpeechmaticsConfig.init_with_defaults (some ("u1")) (some ("t1")) =
        Except.ok c ∧ c.language = "en-US" ∧ c.format = "txt") ∧
    (∃ m, SpeechmaticsConfig.init none (some ("t1")) (some ("en")) (some ("txt"))
        none none none none = Except.error (PyError.validationError m)) :=
  ⟨(C3_config_validation (some ("u1")) (some ("t1")) (some ("en"))
      (some ("txt")) none none none none).2.2 (by decide) (by decide),
   (C3_config_validation none (some ("t1")) (some ("en")) (some ("txt"))
      none none none none).1.mpr (Or.inl rfl)⟩

/-- C8: loading a configuration from a record that binds an unrecognized
field name fails with a configuration-construction error, and a record
that binds successfully is validated exactly as by direct construction. -/
theorem C8_from_json_record (r : List (String × Option String)) :
    ((∃ k v, (k, v) ∈ r ∧ paramNames.contains k = false) →
      failsAsConfig (from_json_record r) = true) ∧
    (∀ a, bindKwargs r = Except.ok a →
      from_json_record r =
        SpeechmaticsConfig.init a.userId a.apiAuthToken a.language a.format
          a.text a.callback_url a.notification a.notification_email) := by
  constructor
  · rintro ⟨k, v, hmem, hk⟩
    have hk' : k ∉ paramNames := by simpa using hk
    have hany : r.any (fun p => !(paramNames.contains p.1)) = true := by
      rw [List.any_eq_true]
      exact ⟨(k, v), hmem, by simp [hk']⟩
    unfold from_json_record bindKwargs
    rw [if_pos hany]
    rfl
  · intro a ha
    simp [from_json_record, ha]

theorem C8_from_json_record_witness :
    failsAsConfig (from_json_record [("bogus", some ("x"))]) = true :=
  (C8_from_json_record [("bogus", some ("x"))]).1
    ⟨"bogus", some ("x"), by simp, by decide⟩

/-- C4: every non-200 response to job submission, job-details fetch or
output fetch fails with the single `SpeechmaticsError` exception type; the
submission message carries a dedicated detail block for each of the codes
400, 401, 403, 429, 503 (pairwise distinct), and an empty detail block —
the generic message — for every other code. -/
theorem C4_non200_uniform_error (code : Nat) (hcode : code ≠ 200)
    (body : String) (parseId : String → Except PyError String)
    (parseJob : String → Except PyError Details) :
    job_post_response parseId ⟨code, body⟩ =
      Except.error (PyError.speechmaticsError (job_post_err_msg code)) ∧
    job_details_response parseJob ⟨code, body⟩ =
      Except.error (PyError.speechmaticsError (get_failure_msg code)) ∧
    get_output_response ⟨code, body⟩ =
      Except.error (PyError.speechmaticsError (get_failure_msg code)) ∧
    (code ∉ ([400, 401, 403, 429, 503] : List Nat) →
      job_post_err_detail code = "") ∧
    (code ∈ ([400, 401, 403, 429, 503] : List Nat) →
      job_post_err_detail code ≠ "") ∧
    (([400, 401, 403, 429, 503] : List Nat).map job_post_err_detail).Nodup := by
  refine ⟨?_, ?_, ?_, ?_, ?_, ?_⟩
  · simp [job_post_response, hcode]
  · simp [job_details_response, hcode]
  · simp [get_output_response, hcode]
  · intro h
    simp only [List.mem_cons, List.not_mem_nil, or_false, not_or] at h
    simp [job_post_err_detail, h.1, h.2.1, h.2.2.1, h.2.2.2.1, h.2.2.2.2]
  · intro h
    simp only [List.mem_cons, List.not_mem_nil, or_false] at h
    rcases h with rfl | rfl | rfl | rfl | rfl <;> decide
  · decide

theorem C4_non200_uniform_error_witness :
    job_post_response parseIdStub ⟨418, ""⟩ =
      Except.error (PyError.speechmaticsError (job_post_err_msg 418)) ∧
    job_post_err_detail 418 = "" ∧
    get_output_response ⟨418, ""⟩ =
      Except.error (PyError.speechmaticsError (get_failure_msg 418)) := by
  have h := C4_non200_uniform_error 418 (by decide) ("") parseIdStub parseJobStub
  exact ⟨h.1, h.2.2.2.1 (by decide), h.2.2.1⟩

/-- Splitting a character list at the first separator occurrence: when the
separator occurs, the pieces reassemble to the input and the first piece is
separator-free. -/
lemma splitFirst_sound : ∀ cs : List Char, cs.contains '=' = true →
    ∃ m v, splitFirst '=' cs = (m, some v) ∧ m ++ '=' :: v = cs ∧
      m.contains '=' = false := by
  intro cs
  induction cs with
  | nil => intro h; simp at h
  | cons c cs ih =>
    intro h
    by_cases hc : c = '='
    · subst hc
      exact ⟨[], cs, by simp [splitFirst], rfl, by simp⟩
    · have hcs : cs.contains '=' = true := by
        simp only [List.contains_cons, Bool.or_eq_true, beq_iff_eq] at h
        rcases h with h1 | h1
        · exact absurd h1.symm hc
        · exact h1
      obtain ⟨m, v, h1, h2, h3⟩ := ih hcs
      refine ⟨c :: m, v, ?_, ?_, ?_⟩
      · simp [splitFirst, hc, h1]
      · simp [h2]
      · have h3' : '=' ∉ m := by simpa using h3
        simp
        exact ⟨fun hh => hc hh.symm, h3'⟩

/-- C5: a language value containing `=` is split at its first `=` into a
model part (itself `=`-free) and a version part that together reassemble
the input; a value without `=` is passed whole as the model with no
version. -/
theorem C5_language_split (lang : String) :
    (lang.data.contains '=' = true →
      ∃ m v, job_post_form_data lang = (m, some v) ∧
        m.data ++ '=' :: v.data = lang.data ∧ m.data.contains '=' = false) ∧
    (lang.data.contains '=' = false →
      job_post_form_data lang = (lang, none)) := by
  constructor
  · intro h
    have h' : '=' ∈ lang.data := by simpa using h
    obtain ⟨m, v, h1, h2, h3⟩ := splitFirst_sound lang.data h
    refine ⟨String.mk m, String.mk v, ?_, ?_, ?_⟩
    · simp [job_post_form_data, h', h1]
    · simpa using h2
    · simpa using h3
  · intro h
    have h' : '=' ∉ lang.data := by simpa using h
    simp [job_post_form_data, h']

theorem C5_language_split_witness :
    (∃ m v, job_post_form_data ("en-US=2.4") = (m, some v) ∧
      m.data ++ '=' :: v.data = ("en-US=2.4" : String).data ∧
      m.data.contains '=' = false) ∧
    job_post_form_data ("no-version") = ("no-version", none) :=
  ⟨(C5_language_split ("en-US=2.4")).1 (by decide),
   (C5_language_split ("no-version")).2 (by decide)⟩

/-- The polling loop entered on a terminal record performs no call at all. -/
lemma pollLoop_terminal (jid : String) (d : Details)
    (rs : List (Except PyError Details))
    (hd : terminalStatus d.job_status = true) :
    pollLoop jid d rs = ([], PollResult.terminal d) := by
  cases rs with
  | nil => simp [pollLoop, hd]
  | cons r rs => cases r <;> simp [pollLoop, hd]

/-- The polling loop, entered on a non-terminal record, consumes exactly
the listed non-terminal records and stops at the first terminal record,
whatever responses follow it. -/
lemma pollLoop_run (jid : String) (dT : Details)
    (extra : List (Except PyError Details))
    (hdT : terminalStatus dT.job_status = true) :
    ∀ (ds : List Details) (d : Details),
      terminalStatus d.job_status = false →
      (∀ x ∈ ds, terminalStatus x.job_status = false) →
      pollLoop jid d (ds.map Except.ok ++ Except.ok dT :: extra) =
        (pollEvents jid (d :: ds), PollResult.terminal dT) := by
  intro ds
  induction ds with
  | nil =>
    intro d hd _
    simp [pollLoop, hd, pollEvents, pollLoop_terminal jid dT extra hdT]
  | cons d1 ds ih =>
    intro d hd hall
    have h1 : terminalStatus d1.job_status = false := hall d1 (by simp)
    have hrest : ∀ x ∈ ds, terminalStatus x.job_status = false :=
      fun x hx => hall x (by simp [hx])
    simp [pollLoop, hd, pollEvents, ih d1 h1 hrest]

/-- Shape of a `transcript_audio` run whose details responses are a block
of non-terminal records followed by a terminal record: the trace is the
submission, the first details fetch, the poll events, and the
terminal-phase events; the result is the terminal phase's. -/
lemma transcript_audio_run (full_path : String) (env : Env) (jid : String)
    (ds : List Details) (dT : Details) (extra : List (Except PyError Details))
    (hpost : env.postResult = Except.ok jid)
    (hresp : env.detailsResponses = (ds ++ [dT]).map Except.ok ++ extra)
    (hds : ∀ d ∈ ds, terminalStatus d.job_status = false)
    (hdT : terminalStatus dT.job_status = true) :
    transcript_audio full_path env =
      (Event.jobPost full_path env.config.language env.config.text
          env.config.callback_url env.config.notification
          env.config.notification_email ::
        Event.jobDetails jid ::
          (pollEvents jid ds ++ (terminalPhase env jid dT).1),
       (terminalPhase env jid dT).2) := by
  cases ds with
  | nil =>
    have hresp' : env.detailsResponses = Except.ok dT :: extra := by
      simpa using hresp
    simp [transcript_audio, hpost, hresp', pollEvents,
      pollLoop_terminal jid dT extra hdT]
  | cons d0 ds' =>
    have h0 : terminalStatus d0.job_status = false := hds d0 (by simp)
    have hrest : ∀ x ∈ ds', terminalStatus x.job_status = false :=
      fun x hx => hds x (by simp [hx])
    have hresp' : env.detailsResponses =
        Except.ok d0 :: (ds'.map Except.ok ++ Except.ok dT :: extra) := by
      simpa using hresp
    have hp := pollLoop_run jid dT extra hdT ds' d0 h0 hrest
    simp [transcript_audio, hpost, hresp', hp, pollEvents]

lemma sleepsOf_append (a b : List Event) :
    sleepsOf (a ++ b) = sleepsOf a ++ sleepsOf b := by
  induction a with
  | nil => rfl
  | cons e a ih => cases e <;> simp [sleepsOf, ih]

lemma outputCallsOf_append (a b : List Event) :
    outputCallsOf (a ++ b) = outputCallsOf a ++ outputCallsOf b := by
  induction a with
  | nil => rfl
  | cons e a ih => cases e <;> simp [outputCallsOf, ih]

lemma jobIdsOf_append (a b : List Event) :
    jobIdsOf (a ++ b) = jobIdsOf a ++ jobIdsOf b := by
  induction a with
  | nil => rfl
  | cons e a ih => cases e <;> simp [jobIdsOf, ih]

/-- The sleeps the loop performs are the `check_wait` values of the
non-terminal records it consumed, in fetch order. -/
lemma sleepsOf_pollEvents (jid : String) (ds : List Details) :
    sleepsOf (pollEvents jid ds) = ds.map Details.check_wait := by
  induction ds with
  | nil => rfl
  | cons d ds ih => simp [pollEvents, sleepsOf, ih]

lemma outputCallsOf_pollEvents (jid : String) (ds : List Details) :
    outputCallsOf (pollEvents jid ds) = [] := by
  induction ds with
  | nil => rfl
  | cons d ds ih => simp [pollEvents, outputCallsOf, ih]

lemma sleepsOf_terminalPhase (env : Env) (jid : String) (d : Details) :
    sleepsOf (terminalPhase env jid d).1 = [] := by
  unfold terminalPhase
  split
  · rfl
  · split
    · rfl
    · cases hjk : jobTypeKind d.job_type <;> rfl

/-- Configuration used by the orchestrator witnesses: userId "u1", token
"t1", language "en-US", format "txt", no optional fields. -/
def cfgStub : SpeechmaticsConfig :=
  { userId := "u1", apiAuthToken := "t1", language := "en-US",
    format := "txt", text := none, callback_url := none,
    notification := none, notification_email := none }

/-- C1: in a run whose details responses are non-terminal records followed
by a terminal one, the sleeps performed are exactly the `check_wait` values
of the successive non-terminal records, in order; when the terminal record
is `done` with job type `transcription`, the run then performs exactly one
output fetch with kind `transcript`. -/
theorem C1_poll_wait_sequence (full_path : String) (env : Env) (jid : String)
    (ds : List Details) (dT : Details) (extra : List (Except PyError Details))
    (hpost : env.postResult = Except.ok jid)
    (hresp : env.detailsResponses = (ds ++ [dT]).map Except.ok ++ extra)
    (hds : ∀ d ∈ ds, terminalStatus d.job_status = false)
    (hdT : terminalStatus dT.job_status = true) :
    sleepsOf (transcript_audio full_path env).1 = ds.map Details.check_wait ∧
    (dT.job_status = "done" → dT.job_type = "transcription" →
      outputCallsOf (transcript_audio full_path env).1 =
        [(jid, env.config.format, "transcript")]) := by
  rw [transcript_audio_run full_path env jid ds dT extra hpost hresp hds hdT]
  constructor
  · simp [sleepsOf, sleepsOf_append, sleepsOf_pollEvents,
      sleepsOf_terminalPhase]
  · intro h1 h2
    have ht : (terminalPhase env jid dT).1 =
        [Event.getOutput jid env.config.format ("transcript")] := by
      unfold terminalPhase
      rw [h1, h2, if_neg (by decide), if_neg (by decide),
        show jobTypeKind ("transcription") = some ("transcript") from by decide]
    simp [outputCallsOf, outputCallsOf_append, outputCallsOf_pollEvents, ht]

def envC1 : Env :=
  { config := cfgStub, postResult := Except.ok ("42"),
    detailsResponses :=
      [Except.ok ⟨"running", 2, "transcription"⟩,
       Except.ok ⟨"running", 5, "transcription"⟩,
       Except.ok ⟨"done", 0, "transcription"⟩],
    outputResult := Except.ok ("hello world") }

theorem C1_poll_wait_sequence_witness :
    sleepsOf (transcript_audio ("a.mp3") envC1).1 = [2, 5] ∧
    outputCallsOf (transcript_audio ("a.mp3") envC1).1 =
      [("42", "txt", "transcript")] := by
  have h := C1_poll_wait_sequence ("a.mp3") envC1 ("42")
    [⟨"running", 2, "transcription"⟩, ⟨"running", 5, "transcription"⟩]
    ⟨"done", 0, "transcription"⟩ [] rfl rfl (by decide) (by decide)
  exact ⟨h.1, h.2 rfl rfl⟩

/-- C2: when the first terminal status fetched is
`unsupported_file_format` or `could_not_align`, the run raises a
`SpeechmaticsError` whose message names the cause, and no output fetch is
ever performed. -/
theorem C2_terminal_failure (full_path : String) (env : Env) (jid : String)
    (ds : List Details) (dT : Details) (extra : List (Except PyError Details))
    (hpost : env.postResult = Except.ok jid)
    (hresp : env.detailsResponses = (ds ++ [dT]).map Except.ok ++ extra)
    (hds : ∀ d ∈ ds, terminalStatus d.job_status = false)
    (hfail : dT.job_status = "unsupported_file_format" ∨
      dT.job_status = "could_not_align") :
    (transcript_audio full_path env).2 =
      RunResult.raised (PyError.speechmaticsError
        (if dT.job_status = "unsupported_file_format" then unsupportedMsg
         else couldNotAlignMsg)) ∧
    outputCallsOf (transcript_audio full_path env).1 = [] := by
  have hdT : terminalStatus dT.job_status = true := by
    rcases hfail with h | h <;> rw [h] <;> decide
  rw [transcript_audio_run full_path env jid ds dT extra hpost hresp hds hdT]
  rcases hfail with h | h
  · have ht : terminalPhase env jid dT =
        ([], RunResult.raised (PyError.speechmaticsError unsupportedMsg)) := by
      unfold terminalPhase
      rw [h, if_pos rfl]
    rw [h]
    constructor
    · simp [ht]
    · simp [ht, outputCallsOf, outputCallsOf_append, outputCallsOf_pollEvents]
  · have ht : terminalPhase env jid dT =
        ([], RunResult.raised (PyError.speechmaticsError couldNotAlignMsg)) := by
      unfold terminalPhase
      rw [h, if_neg (by decide), if_pos rfl]
    rw [h]
    constructor
    · simp [ht]
    · simp [ht, outputCallsOf, outputCallsOf_append, outputCallsOf_pollEvents]

def envC2 : Env :=
  { config := cfgStub, postResult := Except.ok ("42"),
    detailsResponses :=
      [Except.ok ⟨"running", 1, "transcription"⟩,
       Except.ok ⟨"unsupported_file_format", 0, "transcription"⟩],
    outputResult := Except.ok ("unused") }

theorem C2_terminal_failure_witness :
    (transcript_audio ("a.mp3") envC2).2 =
      RunResult.raised (PyError.speechmaticsError unsupportedMsg) ∧
    outputCallsOf (transcript_audio ("a.mp3") envC2).1 = [] := by
  have h := C2_terminal_failure ("a.mp3") envC2 ("42")
    [⟨"running", 1, "transcription"⟩]
    ⟨"unsupported_file_format", 0, "transcription"⟩ [] rfl rfl (by decide)
    (Or.inl rfl)
  exact ⟨h.1, h.2⟩

/-- C7: when the first terminal status fetched is neither
`unsupported_file_format` nor `could_not_align` (this includes `done` and
`expired`), and the job type is `transcription` or `alignment`, the run
proceeds to success handling: it performs exactly one output fetch with
the configuration's format and the mapped output kind, and returns the
fetched output; no failure is raised. -/
theorem C7_success_fallthrough (full_path : String) (env : Env)
    (jid : String) (ds : List Details) (dT : Details)
    (extra : List (Except PyError Details)) (out : String)
    (hpost : env.postResult = Except.ok jid)
    (hresp : env.detailsResponses = (ds ++ [dT]).map Except.ok ++ extra)
    (hds : ∀ d ∈ ds, terminalStatus d.job_status = false)
    (hdT : terminalStatus dT.job_status = true)
    (hn1 : dT.job_status ≠ "unsupported_file_format")
    (hn2 : dT.job_status ≠ "could_not_align")
    (hjt : dT.job_type = "transcription" ∨ dT.job_type = "alignment")
    (hout : env.outputResult = Except.ok out) :
    outputCallsOf (transcript_audio full_path env).1 =
      [(jid, env.config.format,
        if dT.job_type = "transcription" then "transcript"
        else "alignment")] ∧
    (transcript_audio full_path env).2 = RunResult.ok out := by
  rw [transcript_audio_run full_path env jid ds dT extra hpost hresp hds hdT]
  have ht : terminalPhase env jid dT =
      ([Event.getOutput jid env.config.format
          (if dT.job_type = "transcription" then ("transcript" : String)
           else "alignment")],
       RunResult.ok out) := by
    unfold terminalPhase
    rw [if_neg hn1, if_neg hn2, hout]
    rcases hjt with h | h
    · rw [h, show jobTypeKind ("transcription") = some ("transcript")
          from by decide, if_pos rfl]
    · rw [h, show jobTypeKind ("alignment") = some ("alignment")
          from by decide, if_neg (by decide)]
  constructor
  · simp [ht, outputCallsOf, outputCallsOf_append, outputCallsOf_pollEvents]
  · simp [ht]

def envC7 : Env :=
  { config := cfgStub, postResult := Except.ok ("42"),
    detailsResponses := [Except.ok ⟨"expired", 0, "transcription"⟩],
    outputResult := Except.ok ("hello world") }

theorem C7_success_fallthrough_witness :
    outputCallsOf (transcript_audio ("a.mp3") envC7).1 =
      [("42", "txt", "transcript")] ∧
    (transcript_audio ("a.mp3") envC7).2 = RunResult.ok ("hello world") := by
  have h := C7_success_fallthrough ("a.mp3") envC7 ("42") []
    ⟨"expired", 0, "transcription"⟩ [] ("hello world") rfl rfl (by decide)
    (by decide) (by decide) (by decide) (Or.inl rfl) rfl
  exact ⟨h.1, h.2⟩

/-- C10: when the first terminal status fetched is a non-failure status
but the job type is neither `transcription` nor `alignment`, the run
neither returns an output nor raises any error of the documented taxonomy:
it aborts with Python's unbound-local (name-resolution) error on the
output-kind variable, and no output fetch is performed. -/
theorem C10_unassigned_job_type (full_path : String) (env : Env)
    (jid : String) (ds : List Details) (dT : Details)
    (extra : List (Except PyError Details))
    (hpost : env.postResult = Except.ok jid)
    (hresp : env.detailsResponses = (ds ++ [dT]).map Except.ok ++ extra)
    (hds : ∀ d ∈ ds, terminalStatus d.job_status = false)
    (hdT : terminalStatus dT.job_status = true)
    (hn1 : dT.job_status ≠ "unsupported_file_format")
    (hn2 : dT.job_status ≠ "could_not_align")
    (hjt1 : dT.job_type ≠ "transcription")
    (hjt2 : dT.job_type ≠ "alignment") :
    (transcript_audio full_path env).2 =
      RunResult.raised (PyError.unboundLocalError ("job_type")) ∧
    outputCallsOf (transcript_audio full_path env).1 = [] := by
  rw [transcript_audio_run full_path env jid ds dT extra hpost hresp hds hdT]
  have hk : jobTypeKind dT.job_type = none := by
    unfold jobTypeKind
    rw [if_neg hjt1, if_neg hjt2]
  have ht : terminalPhase env jid dT =
      ([], RunResult.raised (PyError.unboundLocalError ("job_type"))) := by
    unfold terminalPhase
    rw [if_neg hn1, if_neg hn2, hk]
  exact ⟨by simp [ht],
    by simp [ht, outputCallsOf, outputCallsOf_append, outputCallsOf_pollEvents]⟩

def envC10 : Env :=
  { config := cfgStub, postResult := Except.ok ("42"),
    detailsResponses := [Except.ok ⟨"done", 0, "translation"⟩],
    outputResult := Except.ok ("unused") }

theorem C10_unassigned_job_type_witness :
    (transcript_audio ("a.mp3") envC10).2 =
      RunResult.raised (PyError.unboundLocalError ("job_type")) ∧
    outputCallsOf (transcript_audio ("a.mp3") envC10).1 = [] := by
  have h := C10_unassigned_job_type ("a.mp3") envC10 ("42") []
    ⟨"done", 0, "translation"⟩ [] rfl rfl (by decide) (by decide) (by decide)
    (by decide) (by decide) (by decide)
  exact ⟨h.1, h.2⟩

/-- Every identifier the polling loop passes to the service is the one it
was given. -/
lemma jobIdsOf_pollLoop (jid : String) :
    ∀ (rs : List (Except PyError Details)) (d : Details),
      (jobIdsOf (pollLoop jid d rs).1).all (fun i => i == jid) = true := by
  intro rs
  induction rs with
  | nil =>
    intro d
    by_cases hd : terminalStatus d.job_status = true
    · simp [pollLoop, hd, jobIdsOf]
    · simp [pollLoop, hd, jobIdsOf]
  | cons r rs ih =>
    intro d
    by_cases hd : terminalStatus d.job_status = true
    · simp [pollLoop_terminal jid d (r :: rs) hd, jobIdsOf]
    · cases r with
      | error e => simp [pollLoop, hd, jobIdsOf]
      | ok d1 => simp [pollLoop, hd, jobIdsOf, ih d1]

/-- Every identifier the terminal phase passes to the service is the one
it was given. -/
lemma jobIdsOf_terminalPhase (env : Env) (jid : String) (d : Details) :
    (jobIdsOf (terminalPhase env jid d).1).all (fun i => i == jid) = true := by
  unfold terminalPhase
  split
  · rfl
  · split
    · rfl
    · cases hjk : jobTypeKind d.job_type <;> simp [jobIdsOf]

/-- C6: in every run, the job identifier returned by the submission is the
exact identifier passed to every subsequent details fetch and to the
output fetch. -/
theorem C6_job_id_threading (full_path : String) (env : Env) (jid : String)
    (hpost : env.postResult = Except.ok jid) :
    (jobIdsOf (transcript_audio full_path env).1).all
      (fun i => i == jid) = true := by
  cases hresp : env.detailsResponses with
  | nil => simp [transcript_audio, hpost, hresp, jobIdsOf]
  | cons r rs =>
    cases r with
    | error e => simp [transcript_audio, hpost, hresp, jobIdsOf]
    | ok d0 =>
      cases hp : (pollLoop jid d0 rs).2 with
      | stuck =>
        simp [transcript_audio, hpost, hresp, hp, jobIdsOf,
          jobIdsOf_pollLoop jid rs d0]
      | raised e =>
        simp [transcript_audio, hpost, hresp, hp, jobIdsOf,
          jobIdsOf_pollLoop jid rs d0]
      | terminal d =>
        have h1 := jobIdsOf_pollLoop jid rs d0
        have h2 := jobIdsOf_terminalPhase env jid d
        simp only [List.all_eq_true] at h1 h2
        simp only [transcript_audio, hpost, hresp, hp, jobIdsOf,
          jobIdsOf_append, List.all_eq_true, List.all_append]
        intro i hi
        simp only [jobIdsOf, List.mem_cons, List.mem_append] at hi
        rcases hi with hi | hi | hi
        · simp [hi]
        · exact h1 i hi
        · exact h2 i hi

def envC6 : Env :=
  { config := cfgStub, postResult := Except.ok ("42"),
    detailsResponses :=
      [Except.ok ⟨"running", 3, "transcription"⟩,
       Except.ok ⟨"done", 0, "transcription"⟩],
    outputResult := Except.ok ("hello world") }

theorem C6_job_id_threading_witness :
    (jobIdsOf (transcript_audio ("a.mp3") envC6).1).all
      (fun i => i == "42") = true :=
  C6_job_id_threading ("a.mp3") envC6 ("42") rfl

end Speechmatics
